import Mathlib

/-!
Verification of the procedural pixel-art tile generator
(`tools/generate_tiles.py`): Bayer dithered transitions, palette swapping,
47-configuration blob autotiling, palette statistics comparison, and the
resizing entry point.

Modelling conventions (shallow embedding):
- An RGBA raster (`PIL.Image` in mode RGBA / a numpy `(H, W, 4)` array) is a
  `Tile`: a width, a height, and a total pixel function.  All claims only
  inspect coordinates inside the declared bounds.
- Python floats are modelled by exact rational arithmetic.  Every float
  comparison in the source is between two exact fractions (or square roots
  of such, which occur only in comparisons of the form
  `sqrt a / sqrt b > t` with `a, b, t ≥ 0`); each comparison is embedded as
  the equivalent cross-multiplied integer comparison, recorded next to the
  definition.  Rational values exposed in results are built with
  `Rat.divInt numerator denominator`.
- File decoding / encoding (`Image.open`, `.save`, JSON dumping) is I/O at
  the boundary of the core; functions taking a path in the source are
  embedded as functions taking the decoded in-memory value.
- `raise` is modelled with `Except`: a function raises iff its embedding
  returns `.error`.  Functions whose source has no `raise` statement are
  embedded as total functions.
-/

/-- One RGBA pixel, 8 bits per channel (values are the byte values 0..255;
the verified code paths only ever copy pixels from an input, never combine
them arithmetically, so channel values need no modular reduction). -/
structure Pixel where
  r : ℕ
  g : ℕ
  b : ℕ
  a : ℕ
deriving DecidableEq

/-- An RGBA raster: a width, a height and a row-major pixel grid, embedded as
a total function on coordinates `(x, y)`; only coordinates with
`x < width`, `y < height` are meaningful. -/
structure Tile where
  width : ℕ
  height : ℕ
  pix : ℕ → ℕ → Pixel

/-- A solid one-colour tile (used as concrete test input). -/
def solidTile (w h : ℕ) (p : Pixel) : Tile :=
  ⟨w, h, fun _ _ => p⟩

/-- An RGB triple (a palette entry). -/
abbrev RGBTriple := ℕ × ℕ × ℕ

/-! ## Bayer matrices (`BAYER_2X2`, `BAYER_4X4`, `BAYER_8X8`)

The source stores the integer matrices divided by 4 / 16 / 64; we keep the
integer tables and carry the denominator separately. -/

/-- Integer entries of `BAYER_2X2` (source divides by `4.0`). -/
def bayer2Vals : List (List ℕ) := [[0, 2], [3, 1]]

/-- Integer entries of `BAYER_4X4` (source divides by `16.0`). -/
def bayer4Vals : List (List ℕ) :=
  [[0, 8, 2, 10], [12, 4, 14, 6], [3, 11, 1, 9], [15, 7, 13, 5]]

/-- Integer entries of `BAYER_8X8` (source divides by `64.0`). -/
def bayer8Vals : List (List ℕ) :=
  [[0, 32, 8, 40, 2, 34, 10, 42],
   [48, 16, 56, 24, 50, 18, 58, 26],
   [12, 44, 4, 36, 14, 46, 6, 38],
   [60, 28, 52, 20, 62, 30, 54, 22],
   [3, 35, 11, 43, 1, 33, 9, 41],
   [51, 19, 59, 27, 49, 17, 57, 25],
   [15, 47, 7, 39, 13, 45, 5, 37],
   [63, 31, 55, 23, 61, 29, 53, 21]]

/-- Whether string `s` starts with `p` (Python `str.startswith`), computed on
the underlying character lists. -/
def strStartsWith (s p : String) : Bool :=
  decide (s.data.take p.data.length = p.data)

/-- Python `str.split(sep)` for a single-character separator, on character
lists: `splitOnChar '_' "corner_tl".data = ["corner".data, "tl".data]`. -/
def splitOnChar (sep : Char) : List Char → List (List Char)
  | [] => [[]]
  | c :: cs =>
    if c = sep then [] :: splitOnChar sep cs
    else match splitOnChar sep cs with
      | h :: t => (c :: h) :: t
      | [] => [[c]]

/-- Numerator of the tiled threshold matrix entry at row `y`, column `x`:
`np.tile(bayer, ...)[:height, :width]` wraps the selected Bayer matrix, so
the entry at `(y, x)` is `bayer[y % n][x % n]`.  The matrix is selected by
`matrices.get(matrix_size, BAYER_4X4)`: sizes 2 and 8 pick their matrices,
any other value (including 4) yields `BAYER_4X4`. -/
def bayerNum (matrixSize y x : ℕ) : ℕ :=
  if matrixSize = 2 then (bayer2Vals.getD (y % 2) []).getD (x % 2) 0
  else if matrixSize = 8 then (bayer8Vals.getD (y % 8) []).getD (x % 8) 0
  else (bayer4Vals.getD (y % 4) []).getD (x % 4) 0

/-- Denominator of the threshold matrix entry (4, 64, or 16 for the
`BAYER_4X4` fallback), matching `bayerNum`. -/
def bayerDen (matrixSize : ℕ) : ℕ :=
  if matrixSize = 2 then 4 else if matrixSize = 8 then 64 else 16

/-- The threshold value `threshold[y][x]` as a rational, for use in
statements: `bayerNum / bayerDen`. -/
def bayerThreshold (matrixSize y x : ℕ) : ℚ :=
  Rat.divInt (bayerNum matrixSize y x) (bayerDen matrixSize)

/-- Entry `(y, x)` of the boolean mask returned by `create_bayer_mask`:
`gradient(y, x) > threshold(y, x)`, where `threshold(y, x) = a / d` with
`a = bayerNum`, `d = bayerDen` (`d > 0`, `a ≥ 0`).

Gradient field per direction, and the exact integer form of each comparison
(all denominators are positive, so cross-multiplying preserves `>`):
- `left`: `np.linspace(0, 1, width)`, i.e. `x / (width-1)` (the single value
  `0` when `width ≤ 1`); `x/(w-1) > a/d  ⟺  x·d > a·(w-1)`.
- `right`: `np.linspace(1, 0, width)`, i.e. `1 - x/(w-1) = (w-1-x)/(w-1)`
  (the single value `1` when `width ≤ 1`); `⟺ (w-1-x)·d > a·(w-1)`.
- `top` / `bottom`: same along `y` with `height`.
- `diagonal`: `(x+y) / max(w+h-2, 1)`; `⟺ (x+y)·d > a·max(w+h-2, 1)`
  (Python `max(w+h-2, 1)` on ints equals `max (w+h-2) 1` on `ℕ`: both are 1
  whenever `w+h ≤ 3`).
- `radial`: `sqrt((x-cx)² + (y-cy)²) / sqrt(cx² + cy²)` with `cx = w/2`,
  `cy = h/2`; both sides of `… > a/d` are nonnegative, so squaring and
  clearing the denominators `4` (from the halves) and `d²` gives
  `⟺ d²·((2x-w)² + (2y-h)²) > a²·(w² + h²)`.
- `corner_*`: `sqrt((x-ox)² + (y-oy)²) / sqrt(w² + h²)` with
  `oy = 0` if the corner substring (`direction.split("_")[1]`) contains
  `t` else `h-1`, `ox = 0` if it contains `l` else `w-1`;
  `⟺ d²·((x-ox)² + (y-oy)²) > a²·(w² + h²)`.
- any other direction: the gradient keeps its `np.zeros` initial value, so
  the comparison is `0 > a/d ⟺ 0 > a` (always false). -/
def create_bayer_mask (width height : ℕ) (direction : String)
    (matrixSize : ℕ) (x y : ℕ) : Bool :=
  let a : ℤ := bayerNum matrixSize y x
  let d : ℤ := bayerDen matrixSize
  if direction = "left" then
    if width ≤ 1 then decide ((0 : ℤ) > a)
    else decide ((x : ℤ) * d > a * ((width : ℤ) - 1))
  else if direction = "right" then
    if width ≤ 1 then decide (d > a)
    else decide (((width : ℤ) - 1 - x) * d > a * ((width : ℤ) - 1))
  else if direction = "top" then
    if height ≤ 1 then decide ((0 : ℤ) > a)
    else decide ((y : ℤ) * d > a * ((height : ℤ) - 1))
  else if direction = "bottom" then
    if height ≤ 1 then decide (d > a)
    else decide (((height : ℤ) - 1 - y) * d > a * ((height : ℤ) - 1))
  else if direction = "diagonal" then
    decide (((x : ℤ) + y) * d > a * ((max (width + height - 2) 1 : ℕ) : ℤ))
  else if direction = "radial" then
    decide (d ^ 2 * ((2 * x - (width : ℤ)) ^ 2 + (2 * y - (height : ℤ)) ^ 2) >
      a ^ 2 * ((width : ℤ) ^ 2 + (height : ℤ) ^ 2))
  else if strStartsWith direction "corner_" then
    let corner := (splitOnChar '_' direction.data).getD 1 []
    let oy : ℤ := if 't' ∈ corner then 0 else (height : ℤ) - 1
    let ox : ℤ := if 'l' ∈ corner then 0 else (width : ℤ) - 1
    decide (d ^ 2 * (((x : ℤ) - ox) ^ 2 + ((y : ℤ) - oy) ^ 2) >
      a ^ 2 * ((width : ℤ) ^ 2 + (height : ℤ) ^ 2))
  else
    decide ((0 : ℤ) > a)

/-- Nearest-neighbour resampling to `(tw, th)`, as performed by
`Image.resize(..., Image.Resampling.NEAREST)` in Pillow: output pixel
`(x, y)` samples the source at `(⌊(x + 1/2)·srcW/tw⌋, ⌊(y + 1/2)·srcH/th⌋)`. -/
def nearestResize (t : Tile) (tw th : ℕ) : Tile :=
  ⟨tw, th, fun x y =>
    t.pix ((2 * x + 1) * t.width / (2 * tw)) ((2 * y + 1) * t.height / (2 * th))⟩

/-- The ten gradient directions accepted by `create_bayer_mask` (the list
used by `generate_dithered_transition_set`, in its fixed order). -/
def supportedDirections : List String :=
  ["top", "bottom", "left", "right", "diagonal",
   "corner_tl", "corner_tr", "corner_bl", "corner_br", "radial"]

/-- `dither_blend_tiles`: convert both inputs to RGBA, resize `tile_b` to
`tile_a`'s size (nearest-neighbour) when the sizes differ, then select each
output pixel from `b` where the Bayer mask (built over `a`'s dimensions) is
set and from `a` elsewhere (`np.where(mask, arr_b, arr_a)`). -/
def dither_blend_tiles (tile_a tile_b : Tile) (direction : String)
    (matrixSize : ℕ) : Tile :=
  let b := if tile_b.width = tile_a.width ∧ tile_b.height = tile_a.height
    then tile_b else nearestResize tile_b tile_a.width tile_a.height
  ⟨tile_a.width, tile_a.height, fun x y =>
    if create_bayer_mask tile_a.width tile_a.height direction matrixSize x y
    then b.pix x y else tile_a.pix x y⟩

/-! ## Upscaling engine (`_scale2x_vectorized`, `_scale3x_vectorized`,
`resize_tile`)

The numpy implementations read, for every source pixel, its 4- or
8-neighbourhood from an edge-replicated padded array (`np.pad(..., "edge")`)
and write 2×2 / 3×3 output blocks; the embeddings compute the output pixel
at `(ox, oy)` from the source pixel `(ox/2, oy/2)` (resp. `/3`) and its
clamped neighbours.  `ℕ` truncated subtraction gives exactly the clamp at 0. -/

/-- Vectorized EPX / Scale2X.  For each pixel `P` with neighbours `A` (top),
`B` (right), `C` (left), `D` (bottom), the four output sub-pixels follow the
EPX rules of the source. -/
def scale2x (t : Tile) : Tile :=
  ⟨2 * t.width, 2 * t.height, fun ox oy =>
    let x := ox / 2
    let y := oy / 2
    let P := t.pix x y
    let A := t.pix x (y - 1)
    let B := t.pix (min (x + 1) (t.width - 1)) y
    let C := t.pix (x - 1) y
    let D := t.pix x (min (y + 1) (t.height - 1))
    if oy % 2 = 0 ∧ ox % 2 = 0 then
      if C = A ∧ C ≠ D ∧ A ≠ B then C else P
    else if oy % 2 = 0 then
      if A = B ∧ A ≠ C ∧ B ≠ D then A else P
    else if ox % 2 = 0 then
      if D = C ∧ D ≠ B ∧ C ≠ A then D else P
    else
      if B = D ∧ B ≠ A ∧ D ≠ C then B else P⟩

/-- Vectorized Scale3X (AdvMAME3x) on the full 3×3 neighbourhood
`A B C / D E F / G H I` (row-major, `E` the centre), with the nine rules of
the source placed by `(oy % 3, ox % 3)`. -/
def scale3x (t : Tile) : Tile :=
  ⟨3 * t.width, 3 * t.height, fun ox oy =>
    let x := ox / 3
    let y := oy / 3
    let xl := x - 1
    let xr := min (x + 1) (t.width - 1)
    let yu := y - 1
    let yd := min (y + 1) (t.height - 1)
    let A := t.pix xl yu
    let B := t.pix x yu
    let C := t.pix xr yu
    let D := t.pix xl y
    let E := t.pix x y
    let F := t.pix xr y
    let G := t.pix xl yd
    let H := t.pix x yd
    let I := t.pix xr yd
    if oy % 3 = 0 ∧ ox % 3 = 0 then
      if D = B ∧ D ≠ H ∧ B ≠ F then D else E
    else if oy % 3 = 0 ∧ ox % 3 = 1 then
      if (D = B ∧ D ≠ H ∧ B ≠ F ∧ E ≠ C) ∨ (B = F ∧ B ≠ D ∧ F ≠ H ∧ E ≠ A)
      then B else E
    else if oy % 3 = 0 then
      if B = F ∧ B ≠ D ∧ F ≠ H then F else E
    else if oy % 3 = 1 ∧ ox % 3 = 0 then
      if (D = B ∧ D ≠ H ∧ B ≠ F ∧ E ≠ G) ∨ (D = H ∧ D ≠ B ∧ H ≠ F ∧ E ≠ A)
      then D else E
    else if oy % 3 = 1 ∧ ox % 3 = 1 then
      E
    else if oy % 3 = 1 then
      if (B = F ∧ B ≠ D ∧ F ≠ H ∧ E ≠ I) ∨ (F = H ∧ F ≠ B ∧ H ≠ D ∧ E ≠ C)
      then F else E
    else if ox % 3 = 0 then
      if D = H ∧ D ≠ B ∧ H ≠ F then D else E
    else if ox % 3 = 1 then
      if (D = H ∧ D ≠ B ∧ H ≠ F ∧ E ≠ I) ∨ (F = H ∧ F ≠ B ∧ H ≠ D ∧ E ≠ G)
      then H else E
    else
      if F = H ∧ F ≠ B ∧ H ≠ D then F else E⟩

/-- The `while current_size * 2 <= to_size` chaining loop of the `scale2x`
branch of `resize_tile`, with explicit fuel.  Each iteration at least
doubles `cur`, so `toSize + 1` steps of fuel always suffice when `cur ≥ 1`
(for `cur = 0` the Python loop never terminates; no caller reaches that). -/
def scale2xLoop (toSize : ℕ) : ℕ → Tile → ℕ → Tile × ℕ
  | 0, t, cur => (t, cur)
  | fuel + 1, t, cur =>
    if cur * 2 ≤ toSize then scale2xLoop toSize fuel (scale2x t) (cur * 2)
    else (t, cur)

/-- `resize_tile`: dispatch on `method`.  `nearest` resizes directly;
`scale2x` chains Scale2X while the doubled size still fits, then finishes
with a nearest resize if the reached size is not exactly `to_size`;
`scale3x` applies Scale3X once, then nearest if needed; `hqx` applies
Scale2X once, then nearest if needed; any other method string falls through
to the `else` branch, a plain nearest resize. -/
def resize_tile (t : Tile) (toSize : ℕ) (method : String) : Tile :=
  if method = "nearest" then
    nearestResize t toSize toSize
  else if method = "scale2x" then
    let sc := scale2xLoop toSize (toSize + 1) t t.width
    if sc.2 ≠ toSize then nearestResize sc.1 toSize toSize else sc.1
  else if method = "scale3x" then
    let scaled := scale3x t
    if t.width * 3 ≠ toSize then nearestResize scaled toSize toSize else scaled
  else if method = "hqx" then
    let scaled := scale2x t
    if t.width * 2 ≠ toSize then nearestResize scaled toSize toSize else scaled
  else
    nearestResize t toSize toSize

/-! ## Palette swap system (`palette_swap`, `save_palette_json`,
`load_palette_json`) -/

/-- Manhattan distance between a pixel's RGB and a palette entry, as in
`np.abs(rgb - src_arr[i]).sum(axis=-1)` (the arrays are `int16`, so this is
exact integer arithmetic). -/
def manhattanDist (p : Pixel) (c : RGBTriple) : ℤ :=
  |(p.r : ℤ) - c.1| + |(p.g : ℤ) - c.2.1| + |(p.b : ℤ) - c.2.2|

/-- The per-palette-entry pixel mask of `palette_swap`:
`(diff <= tolerance) & (alpha >= 50)`.  `rgb` and `alpha` are taken from the
ORIGINAL image array (the source builds `rgb` and reads `alpha` before the
loop and never updates them), so matching always tests original colours. -/
def swapMatch (p : Pixel) (c : RGBTriple) (tolerance : ℤ) : Bool :=
  decide (manhattanDist p c ≤ tolerance ∧ 50 ≤ p.a)

/-- The loop `for i in range(len(source_palette))` of `palette_swap`,
restricted to one pixel: each matching index overwrites the current RGB
with `target[i]`. -/
def swapFoldRGB (p : Pixel) (src tgt : List RGBTriple) (tolerance : ℤ)
    (n : ℕ) : RGBTriple :=
  (List.range n).foldl
    (fun cur i =>
      if swapMatch p (src.getD i (0, 0, 0)) tolerance
      then tgt.getD i (0, 0, 0) else cur)
    (p.r, p.g, p.b)

/-- `palette_swap`: raises `ValueError` on a palette length mismatch,
otherwise recolours, for each palette index in order, every pixel within
`tolerance` (Manhattan) of `source[i]` with alpha ≥ 50 to `target[i]`,
leaving alpha untouched (only `arr[mask, :3]` is assigned). -/
def palette_swap (t : Tile) (src tgt : List RGBTriple) (tolerance : ℤ) :
    Except String Tile :=
  if src.length ≠ tgt.length then
    .error "Palette size mismatch"
  else
    .ok ⟨t.width, t.height, fun x y =>
      let p := t.pix x y
      let rgb := swapFoldRGB p src tgt tolerance src.length
      ⟨rgb.1, rgb.2.1, rgb.2.2, p.a⟩⟩

/-- The JSON value written by `save_palette_json`:
`{"colors": [[r, g, b], ...], "count": N}` (serialisation to text and the
file write are I/O outside the core). -/
structure PaletteJson where
  colors : List (List ℕ)
  count : ℕ
deriving DecidableEq

/-- `save_palette_json`: each tuple becomes the three-element list
`[r, g, b]`, and `count` is the palette length. -/
def save_palette_json (palette : List RGBTriple) : PaletteJson :=
  ⟨palette.map (fun c => [c.1, c.2.1, c.2.2]), palette.length⟩

/-- Decoder for the `colors` field of `load_palette_json`
(`[tuple(c) for c in data["colors"]]`).  Python builds a tuple of whatever
length each entry has; the typed embedding accepts exactly the three-element
entries the format prescribes and rejects anything else. -/
def decodePaletteColors : List (List ℕ) → Option (List RGBTriple)
  | [] => some []
  | [r, g, b] :: rest => (decodePaletteColors rest).map (fun l => (r, g, b) :: l)
  | _ => none

/-- `load_palette_json`: read back the colour list in order. -/
def load_palette_json (d : PaletteJson) : Option (List RGBTriple) :=
  decodePaletteColors d.colors

/-! ## 47-tile bitmask autotiling (`compute_bitmask`, `BLOB47_CATEGORIES`,
`generate_autotile47_tile`, `generate_autotile47_set`) -/

/-- Neighbour presence map over the 8 compass directions.  The source takes
a dict and reads each key with `.get(key, False)`, so a total record of
booleans is the faithful model. -/
structure NeighborMap where
  n : Bool
  ne : Bool
  e : Bool
  se : Bool
  s : Bool
  sw : Bool
  w : Bool
  nw : Bool
deriving DecidableEq

/-- `compute_bitmask`: edge bits are taken directly; a corner bit only
counts if both adjacent edges are present (`effective_ne = ne and n and e`
etc.).  Bit weights: N=1, NE=2, E=4, SE=8, S=16, SW=32, W=64, NW=128. -/
def compute_bitmask (m : NeighborMap) : ℕ :=
  let effective_ne := m.ne && m.n && m.e
  let effective_se := m.se && m.s && m.e
  let effective_sw := m.sw && m.s && m.w
  let effective_nw := m.nw && m.n && m.w
  let b1 := if m.n then 0 ||| 1 else 0
  let b2 := if effective_ne then b1 ||| 2 else b1
  let b3 := if m.e then b2 ||| 4 else b2
  let b4 := if effective_se then b3 ||| 8 else b3
  let b5 := if m.s then b4 ||| 16 else b4
  let b6 := if effective_sw then b5 ||| 32 else b5
  let b7 := if m.w then b6 ||| 64 else b6
  if effective_nw then b7 ||| 128 else b7

/-- The neighbour map whose edge and corner flags are the bits of `k`
(used to exhibit preimages of `compute_bitmask`). -/
def mapOfBitmask (k : ℕ) : NeighborMap :=
  ⟨k.testBit 0, k.testBit 1, k.testBit 2, k.testBit 3,
   k.testBit 4, k.testBit 5, k.testBit 6, k.testBit 7⟩

/-- `BLOB47_CATEGORIES`: the fixed bitmask → category-name table, in the
literal order of the source dict. -/
def BLOB47_CATEGORIES : List (ℕ × String) :=
  [(0, "isolated"),
   (1, "n_only"), (4, "e_only"), (16, "s_only"), (64, "w_only"),
   (17, "ns_pipe"), (68, "ew_pipe"),
   (5, "ne_corner"), (20, "se_corner"), (80, "sw_corner"), (65, "nw_corner"),
   (21, "nse_tee"), (84, "sew_tee"), (81, "nsw_tee"), (69, "new_tee"),
   (85, "cross"),
   (7, "ne_corner_filled"), (28, "se_corner_filled"),
   (112, "sw_corner_filled"), (193, "nw_corner_filled"),
   (23, "nse_inner_se"), (29, "nse_inner_ne"),
   (116, "sew_inner_sw"), (92, "sew_inner_se"),
   (209, "nsw_inner_nw"), (113, "nsw_inner_sw"),
   (71, "new_inner_ne"), (197, "new_inner_nw"),
   (87, "cross_ne"), (93, "cross_se"), (117, "cross_sw"), (213, "cross_nw"),
   (95, "cross_ne_se"), (119, "cross_ne_sw"),
   (215, "cross_nw_se"), (221, "cross_nw_sw"),
   (125, "cross_se_sw"), (245, "cross_nw_ne"),
   (127, "cross_ne_se_sw"), (223, "cross_nw_ne_se"),
   (253, "cross_nw_ne_sw"), (247, "cross_nw_se_sw"),
   (255, "full"),
   (31, "nse_both"), (124, "sew_both"),
   (241, "nsw_both"), (199, "new_both")]

/-- The bitmask keys of the table. -/
def blob47Keys : List ℕ := BLOB47_CATEGORIES.map Prod.fst

/-- Insertion into a key-sorted association list (helper for
`sorted(BLOB47_CATEGORIES.items())`). -/
def insertByKey (p : ℕ × String) : List (ℕ × String) → List (ℕ × String)
  | [] => [p]
  | q :: t => if p.1 ≤ q.1 then p :: q :: t else q :: insertByKey p t

/-- `sorted(dict.items())`: the table entries in ascending bitmask order. -/
def sortByKey (l : List (ℕ × String)) : List (ℕ × String) :=
  l.foldr insertByKey []

/-- One quadrant piece of `generate_autotile47_tile`, as a pixel function on
quadrant-local coordinates.  `e1`/`e2` are the two adjacent edge bits of the
quadrant (N/W for top-left, N/E for top-right, S/W for bottom-left, S/E for
bottom-right), `corner` the matching corner bit; `qw × qh` is the quadrant
size and `cq`/`bq` the centre/background crops of the quadrant.

Control flow of the source, per quadrant:
- `e1 and e2 and not corner` (inner corner): dither with the quadrant's
  `corner_*` mask (`dirCorner`);
- `elif e1 or e2`: dither with a mask recomputed as `dirBoth1` when only
  `e1`, `dirBoth2` when only `e2` (the initial `direction` assignment and
  the `1.0 - mask` flip are overwritten in those two cases and are dead
  code), and with the `dirCorner` mask when both edges are present (corner
  bit set as well, since the first branch failed);
- `else` (neither edge): paste `centre if e1 and e2 and corner else bg`,
  which in this branch is always the background crop. -/
def autotileQuadrant (cq bq : ℕ → ℕ → Pixel) (qw qh : ℕ)
    (e1 e2 corner : Bool) (dirCorner dirBoth1 dirBoth2 : String)
    (matrixSize : ℕ) : ℕ → ℕ → Pixel :=
  if e1 ∧ e2 ∧ ¬corner then
    fun x y =>
      if create_bayer_mask qw qh dirCorner matrixSize x y then bq x y else cq x y
  else if e1 ∨ e2 then
    let mask : ℕ → ℕ → Bool :=
      if e1 ∧ ¬e2 then create_bayer_mask qw qh dirBoth1 matrixSize
      else if e2 ∧ ¬e1 then create_bayer_mask qw qh dirBoth2 matrixSize
      else create_bayer_mask qw qh dirCorner matrixSize
    fun x y => if mask x y then bq x y else cq x y
  else if e1 ∧ e2 ∧ corner then cq else bq

/-- `generate_autotile47_tile`: resize the background to the centre tile's
size if needed, split the tile into four quadrants at
`(half_w, half_h) = (w // 2, h // 2)`, and composite each quadrant from the
centre/background crops according to the bitmask.  The four `paste` calls
write disjoint rectangles that tile the output, so the result is the
piecewise combination of the four quadrant pieces. -/
def generate_autotile47_tile (center_tile bg_tile : Tile)
    (bitmask matrixSize : ℕ) : Tile :=
  let center := center_tile
  let bg := if bg_tile.width = center.width ∧ bg_tile.height = center.height
    then bg_tile else nearestResize bg_tile center.width center.height
  let w := center.width
  let h := center.height
  let half_w := w / 2
  let half_h := h / 2
  let has_n := bitmask.testBit 0
  let has_ne := bitmask.testBit 1
  let has_e := bitmask.testBit 2
  let has_se := bitmask.testBit 3
  let has_s := bitmask.testBit 4
  let has_sw := bitmask.testBit 5
  let has_w := bitmask.testBit 6
  let has_nw := bitmask.testBit 7
  let crop : Tile → ℕ → ℕ → ℕ → ℕ → Pixel := fun t l tp x y => t.pix (l + x) (tp + y)
  let tl := autotileQuadrant (crop center 0 0) (crop bg 0 0)
    half_w half_h has_n has_w has_nw "corner_tl" "right" "bottom" matrixSize
  let tr := autotileQuadrant (crop center half_w 0) (crop bg half_w 0)
    (w - half_w) half_h has_n has_e has_ne "corner_tr" "left" "bottom" matrixSize
  let bl := autotileQuadrant (crop center 0 half_h) (crop bg 0 half_h)
    half_w (h - half_h) has_s has_w has_sw "corner_bl" "right" "top" matrixSize
  let br := autotileQuadrant (crop center half_w half_h) (crop bg half_w half_h)
    (w - half_w) (h - half_h) has_s has_e has_se "corner_br" "left" "top" matrixSize
  ⟨w, h, fun x y =>
    if x < half_w ∧ y < half_h then tl x y
    else if y < half_h then tr (x - half_w) y
    else if x < half_w then bl x (y - half_h)
    else br (x - half_w) (y - half_h)⟩

/-- The in-memory result of `generate_autotile47_set`: the named tiles (in
generation order), the sheet dimensions, and the mapping JSON fields
(`tileSize`, `cols`, `rows`, `totalTiles`, `bitmaskMap` as
bitmask → (name, sheet index)).  The PNG/JSON writes are I/O. -/
structure Autotile47Set where
  tiles : List (String × Tile)
  sheetWidth : ℕ
  sheetHeight : ℕ
  mappingTileSize : ℕ
  mappingCols : ℕ
  mappingRows : ℕ
  mappingTotal : ℕ
  bitmaskMap : List (ℕ × String × ℕ)

/-- `generate_autotile47_set`: iterate `sorted(BLOB47_CATEGORIES.items())`
(dict keys are unique, so the `generated_bitmasks` dedup check never skips),
generate one tile per entry, assemble an 8-column sheet of
`rows = ceil(n/8)` rows sized from the centre tile, and emit the mapping. -/
def generate_autotile47_set (center_tile bg_tile : Tile) (matrixSize : ℕ) :
    Autotile47Set :=
  let sortedMasks := sortByKey BLOB47_CATEGORIES
  let w := center_tile.width
  let h := center_tile.height
  let n := sortedMasks.length
  let cols := 8
  let rows := (n + cols - 1) / cols
  { tiles := sortedMasks.map
      (fun p => (p.2, generate_autotile47_tile center_tile bg_tile p.1 matrixSize)),
    sheetWidth := cols * w,
    sheetHeight := rows * h,
    mappingTileSize := w,
    mappingCols := cols,
    mappingRows := rows,
    mappingTotal := n,
    bitmaskMap := sortedMasks.enum.map (fun q => (q.2.1, q.2.2, q.1)) }

/-! ## Palette statistics (`extract_tilemap_palette`, `compare_palettes`)

`extract_tilemap_palette` opens an image from a path (I/O) and computes
statistics of its opaque pixels; the embedding takes the decoded `Tile`.
Its `tile_size` and `spacing` parameters are never read in the body, and
`compare_palettes` reads only the `stats` sub-dict plus `uniqueColors`, so
the embedding keeps exactly the fields `compare_palettes` consumes.  All
quantities are kept as exact integers with fixed denominators:
- luminance of a pixel is `(299·r + 587·g + 114·b) / 1000` (the float
  constants 0.299/0.587/0.114 are the exact decimals);
- `luminanceMean = lumSum / (1000 · pixelCount)`,
  `luminanceMin = lumMin / 1000`, `luminanceMax = lumMax / 1000`;
- `hueDistribution` bin `i` is `hueCounts[i] / hueTotal` when
  `hueTotal > 0`, and the unnormalised zero count otherwise (when the total
  is zero every count is zero, so the bins are all `0.0` either way);
- `luminanceStd` and the frequency-sorted `colors` list are computed by the
  source but never read by `compare_palettes`, and are omitted. -/

/-- Scaled luminance `1000 · (0.299 r + 0.587 g + 0.114 b)` of a colour. -/
def lum1000 (c : RGBTriple) : ℕ :=
  299 * c.1 + 587 * c.2.1 + 114 * c.2.2

/-- The 5-bit-per-channel quantisation `(c >> 3) << 3`. -/
def quantize5 (c : RGBTriple) : RGBTriple :=
  (c.1 / 8 * 8, c.2.1 / 8 * 8, c.2.2 / 8 * 8)

/-- The opaque pixels (`alpha >= 50`) of a tile in the row-major order of
`arr[opaque_mask]`, as RGB triples. -/
def opaqueRGB (t : Tile) : List RGBTriple :=
  (List.range t.height).flatMap (fun y =>
    (List.range t.width).filterMap (fun x =>
      let p := t.pix x y
      if 50 ≤ p.a then some (p.r, p.g, p.b) else none))

/-- `opaque_rgb[::10]`: every tenth element, starting at index 0. -/
def every10th (l : List RGBTriple) : List RGBTriple :=
  (l.enum.filter (fun q => q.1 % 10 = 0)).map Prod.snd

/-- The hue-histogram bin of one sampled colour, or `none` for pixels
skipped as achromatic.  Derivation from `colorsys.rgb_to_hsv(r/255, g/255,
b/255)` with `Δ = maxc - minc` (all fractions exact):
- `v = maxc/255`, so `v > 0.1 ⟺ 10·maxc > 255`;
- `s = Δ/maxc` when `maxc ≠ minc` (else `s = 0`, skipped), so
  `s > 0.1 ⟺ 10·Δ > maxc`;
- `h = frac(hh/6)` where `hh = num/Δ` with `num = g - b` when `r` is max,
  `2Δ + b - r` when `g` is max (first match wins, as in colorsys's
  `if/elif`), else `4Δ + r - g`;
- `bin = int(12·h) % 12 = ⌊12·frac(num/(6Δ))⌋ % 12
       = (⌊12·num/(6Δ)⌋ - 12·⌊num/(6Δ)⌋) % 12 = ⌊2·num/Δ⌋ mod 12`
  (floor division; the result of `mod 12` on `ℤ` is already in `[0, 12)`). -/
def chromaticBin (c : RGBTriple) : Option ℕ :=
  let maxc := max c.1 (max c.2.1 c.2.2)
  let minc := min c.1 (min c.2.1 c.2.2)
  if maxc = minc then none
  else if 10 * (maxc - minc) > maxc ∧ 10 * maxc > 255 then
    let delta : ℤ := (maxc : ℤ) - minc
    let num : ℤ :=
      if c.1 = maxc then (c.2.1 : ℤ) - c.2.2
      else if c.2.1 = maxc then 2 * delta + c.2.2 - c.1
      else 4 * delta + c.1 - c.2.1
    some (((2 * num).fdiv delta % 12).toNat)
  else none

/-- The 12 hue-histogram counts over the sampled colours. -/
def hueCountsOf (l : List RGBTriple) : List ℕ :=
  (List.range 12).map (fun i => (l.filterMap chromaticBin).count i)

/-- The `stats` record produced by `extract_tilemap_palette` (scaled-integer
representation, see the section comment). -/
structure TilemapStats where
  pixelCount : ℕ
  lumSum : ℕ
  lumMin : ℕ
  lumMax : ℕ
  uniqueColors : ℕ
  hueCounts : List ℕ
deriving DecidableEq

/-- `extract_tilemap_palette`: `none` models the empty-stats record returned
when the image has no opaque pixel (`stats: {}`, falsy in the comparison
guard); otherwise statistics over the opaque pixels. -/
def extract_tilemap_palette (t : Tile) : Option TilemapStats :=
  match opaqueRGB t with
  | [] => none
  | c :: cs =>
    some { pixelCount := (c :: cs).length,
           lumSum := ((c :: cs).map lum1000).sum,
           lumMin := (cs.map lum1000).foldl min (lum1000 c),
           lumMax := (cs.map lum1000).foldl max (lum1000 c),
           uniqueColors := ((c :: cs).map quantize5).dedup.length,
           hueCounts := hueCountsOf (every10th (c :: cs)) }

/-- Bin-aligned dot product of two hue-count vectors.  (`compare_palettes`
reads both hue dicts through the same `sorted(keys)` permutation, which
leaves dot products and norms unchanged, so bin order is equivalent.) -/
def dotCounts : List ℕ → List ℕ → ℕ
  | a :: as, b :: bs => a * b + dotCounts as bs
  | _, _ => 0

/-- The report of `compare_palettes`.  The score is integer-valued (100
minus penalties of 10/15/25/30), so Python's `round(score, 1)` is the
identity on it; the deltas are reported exactly (before display rounding). -/
structure CompareReport where
  score : ℕ
  compatible : Bool
  luminanceDiff : ℚ
  contrastRangeDiff : ℚ
  colorCountA : ℕ
  colorCountB : ℕ
  issueCount : ℕ
deriving DecidableEq

/-- `compare_palettes`.  `none` models the degenerate
`{"score": 0, "issues": [...]}` dict returned when either `stats` dict is
empty (it has no `compatible`/`details` keys).  Branch conditions, with
`nA = sa.pixelCount` etc. (all positive):
- `lum_diff > 40 ⟺ |lumSumA·nB - lumSumB·nA| > 40·1000·nA·nB`, likewise 20;
- `range_diff > 60 ⟺ |(maxA-minA) - (maxB-minB)| > 60·1000`;
- both hue dicts always carry 12 keys, so the `if hue_a and hue_b` guard is
  always taken; with `S = Σ caᵢ·cbᵢ`, `Sa = Σ caᵢ²`, `Sb = Σ cbᵢ²` over the
  raw counts, `norm > 0 ⟺ Sa·Sb > 0` (the normalising totals cancel), and
  for `c > 0`: `cos < c ⟺ S² · d² < c²·Sa·Sb · n²` with the totals again
  cancelling, i.e. `4·S² < Sa·Sb` for `c = 0.5` and `100·S² < 49·Sa·Sb`
  for `c = 0.7`; when `norm = 0` the source sets `cosine_sim = 0 < c`;
- `count_ratio < 0.3 ⟺ 10·min < 3·max` when `max > 0`, else `ratio = 1`;
- the penalties sum to at most 85, so `max(0, score)` never truncates and
  `ℕ` subtraction computes the same value. -/
def compare_palettes (a b : Option TilemapStats) : Option CompareReport :=
  match a, b with
  | some sa, some sb =>
    let nA : ℤ := sa.pixelCount
    let nB : ℤ := sb.pixelCount
    let lumDiffNum := |(sa.lumSum : ℤ) * nB - (sb.lumSum : ℤ) * nA|
    let p1 : ℕ := if lumDiffNum > 40 * 1000 * nA * nB then 25
      else if lumDiffNum > 20 * 1000 * nA * nB then 10 else 0
    let rangeDiffNum := |((sa.lumMax : ℤ) - sa.lumMin) - ((sb.lumMax : ℤ) - sb.lumMin)|
    let p2 : ℕ := if rangeDiffNum > 60 * 1000 then 15 else 0
    let s := dotCounts sa.hueCounts sb.hueCounts
    let sA := dotCounts sa.hueCounts sa.hueCounts
    let sB := dotCounts sb.hueCounts sb.hueCounts
    let simLtHalf : Bool :=
      if 0 < sA * sB then decide (4 * s * s < sA * sB) else true
    let simLtSeven : Bool :=
      if 0 < sA * sB then decide (100 * s * s < 49 * sA * sB) else true
    let p3 : ℕ := if simLtHalf then 30 else if simLtSeven then 15 else 0
    let cA := sa.uniqueColors
    let cB := sb.uniqueColors
    let ratioLt : Bool :=
      if 0 < max cA cB then decide (10 * min cA cB < 3 * max cA cB) else false
    let p4 : ℕ := if ratioLt then 15 else 0
    some { score := 100 - p1 - p2 - p3 - p4,
           compatible := decide (60 ≤ 100 - p1 - p2 - p3 - p4),
           luminanceDiff := Rat.divInt lumDiffNum (1000 * nA * nB),
           contrastRangeDiff := Rat.divInt rangeDiffNum 1000,
           colorCountA := cA,
           colorCountB := cB,
           issueCount := (if p1 = 0 then 0 else 1) + (if p2 = 0 then 0 else 1) +
             (if p3 = 0 then 0 else 1) + (if p4 = 0 then 0 else 1) }
  | _, _ => none

/-- Number of mask pixels set (`gradient > threshold`) in the `k`-th
4-column block of the `create_bayer_mask width height "left" 4` mask:
columns `4k .. 4k+3`, all `height` rows.  The per-block average (fraction
of set pixels) is `blockCount / (4 · height)`. -/
def blockCount (width height k : ℕ) : ℕ :=
  Finset.sum (Finset.range 4) (fun j =>
    Finset.sum (Finset.range height) (fun y =>
      if create_bayer_mask width height "left" 4 (4 * k + j) y then 1 else 0))

example : compute_bitmask (mapOfBitmask 255) = 255 := by decide
example : compute_bitmask (mapOfBitmask 2) = 0 := by decide
example : (sortByKey BLOB47_CATEGORIES).length = 47 := by decide

/-- Demo foreground colour (the spec's grass green). -/
def grassPixel : Pixel := ⟨34, 139, 34, 255⟩

/-- Demo background colour (the spec's water blue). -/
def waterPixel : Pixel := ⟨30, 90, 200, 255⟩

/-! ## Claims -/

/-- Claim C1 (code bug): bitmask 0 does give pure background, but for
bitmask 255 the pure-centre case is unreachable: every quadrant falls into
the `elif has_n or has_w`-style dithered branch (the `tl_center`-style
variables are computed but dead), so the "full" tile contains background
pixels.  Evaluating the embedded code at the failing input — 4×4 solid
centre/background tiles, bitmask 255, matrixSize 4 — pixel `(1, 1)` of the
output is the background colour, although the claim requires every quadrant
of the bitmask-255 tile to be pure centre. -/
theorem spec_C1 :
    (generate_autotile47_tile (solidTile 4 4 grassPixel) (solidTile 4 4 waterPixel)
        255 4).pix 1 1 = waterPixel ∧
    waterPixel ≠ grassPixel ∧
    (generate_autotile47_tile (solidTile 4 4 grassPixel) (solidTile 4 4 waterPixel)
        0 4).pix 0 0 = waterPixel ∧
    (generate_autotile47_tile (solidTile 4 4 grassPixel) (solidTile 4 4 waterPixel)
        0 4).pix 1 1 = waterPixel ∧
    (generate_autotile47_tile (solidTile 4 4 grassPixel) (solidTile 4 4 waterPixel)
        0 4).pix 3 3 = waterPixel := by
  decide

/-- Claim C2 counterexample: of the four conditions the claim says raise,
only the palette length mismatch does.  At explicit unsupported enum inputs
the other three calls return results instead of raising: matrix size 5
produces the `BAYER_4X4` fallback mask (a well-defined `true` entry equal to
the size-4 mask), an unrecognised direction returns the all-`false` mask,
and an unknown resize method returns the nearest-neighbour result. -/
theorem spec_C2_counterexample :
    create_bayer_mask 4 4 "left" 5 3 0 = true ∧
    create_bayer_mask 4 4 "left" 5 3 0 = create_bayer_mask 4 4 "left" 4 3 0 ∧
    create_bayer_mask 4 4 "sideways" 4 1 1 = false ∧
    (resize_tile (solidTile 2 2 ⟨5, 6, 7, 255⟩) 4 "bicubic").width = 4 ∧
    (resize_tile (solidTile 2 2 ⟨5, 6, 7, 255⟩) 4 "bicubic").pix 0 0 = ⟨5, 6, 7, 255⟩ := by
  decide

/-- Claim C2 (amended): only the palette length mismatch in `palette_swap`
raises (`ValueError`); an unsupported `matrixSize` in `create_bayer_mask`
silently falls back to the `BAYER_4X4` matrix, an unsupported `direction`
yields the all-zero gradient (so the mask is all `false` and every blended
pixel comes from buffer A), and an unsupported `method` in `resize_tile`
silently falls back to a nearest-neighbour resize. -/
theorem spec_C2_amended (tile t2 : Tile) (src tgt : List RGBTriple)
    (tolerance : ℤ) (w h x y msize msize2 toSize : ℕ) (dirA dir method : String)
    (hlen : src.length ≠ tgt.length)
    (hm : msize ≠ 2 ∧ msize ≠ 8)
    (hd : dir ≠ "left" ∧ dir ≠ "right" ∧ dir ≠ "top" ∧ dir ≠ "bottom" ∧
      dir ≠ "diagonal" ∧ dir ≠ "radial" ∧ strStartsWith dir "corner_" = false)
    (hmeth : method ≠ "nearest" ∧ method ≠ "scale2x" ∧ method ≠ "scale3x" ∧
      method ≠ "hqx") :
    palette_swap tile src tgt tolerance = .error "Palette size mismatch" ∧
    create_bayer_mask w h dirA msize x y = create_bayer_mask w h dirA 4 x y ∧
    create_bayer_mask w h dir msize2 x y = false ∧
    resize_tile t2 toSize method = resize_tile t2 toSize "nearest" := by
  obtain ⟨hm2, hm8⟩ := hm
  obtain ⟨hd1, hd2, hd3, hd4, hd5, hd6, hd7⟩ := hd
  obtain ⟨hme1, hme2, hme3, hme4⟩ := hmeth
  refine ⟨?_, ?_, ?_, ?_⟩
  · simp [palette_swap, hlen]
  · simp [create_bayer_mask, bayerNum, bayerDen, hm2, hm8]
  · simp only [create_bayer_mask, hd1, hd2, hd3, hd4, hd5, hd6, hd7,
      if_false, ite_false, Bool.false_eq_true, decide_eq_false_iff_not, not_lt]
    exact Int.natCast_nonneg _
  · simp [resize_tile, hme1, hme2, hme3, hme4]

/-- Claim C2 witness: concrete instantiation of the amended claim — a
one-entry versus empty palette pair, matrix size 5, direction `"sideways"`,
method `"bicubic"`. -/
theorem spec_C2_witness :
    palette_swap (solidTile 1 1 ⟨0, 0, 0, 255⟩) [(0, 0, 0)] [] 24 =
      .error "Palette size mismatch" ∧
    create_bayer_mask 2 2 "left" 5 1 0 = create_bayer_mask 2 2 "left" 4 1 0 ∧
    create_bayer_mask 2 2 "sideways" 3 1 0 = false ∧
    resize_tile (solidTile 2 2 ⟨1, 2, 3, 255⟩) 4 "bicubic" =
      resize_tile (solidTile 2 2 ⟨1, 2, 3, 255⟩) 4 "nearest" :=
  spec_C2_amended (solidTile 1 1 ⟨0, 0, 0, 255⟩) (solidTile 2 2 ⟨1, 2, 3, 255⟩)
    [(0, 0, 0)] [] 24 2 2 1 0 5 3 4 "left" "sideways" "bicubic"
    (by decide) (by decide) (by decide) (by decide)

/-- Claim C3: for every pair of tiles, supported direction and matrix size,
the blended tile has buffer A's dimensions and each pixel inside them is
exactly B's pixel (B resized to A's dimensions by nearest-neighbour when the
sizes differ) where the mask built over A's dimensions is set, and exactly
A's pixel otherwise — never a weighted average: every output pixel equals
one of the two input pixels. -/
theorem spec_C3 (a b : Tile) (dir : String) (ms x y : ℕ)
    (hdir : dir ∈ supportedDirections) (hms : ms ∈ [2, 4, 8])
    (hx : x < a.width) (hy : y < a.height) :
    (dither_blend_tiles a b dir ms).width = a.width ∧
    (dither_blend_tiles a b dir ms).height = a.height ∧
    (dither_blend_tiles a b dir ms).pix x y =
      (if create_bayer_mask a.width a.height dir ms x y
       then (if b.width = a.width ∧ b.height = a.height then b
             else nearestResize b a.width a.height).pix x y
       else a.pix x y) ∧
    ((dither_blend_tiles a b dir ms).pix x y = a.pix x y ∨
     (dither_blend_tiles a b dir ms).pix x y =
       (if b.width = a.width ∧ b.height = a.height then b
        else nearestResize b a.width a.height).pix x y) := by
  refine ⟨rfl, rfl, rfl, ?_⟩
  by_cases hmask : create_bayer_mask a.width a.height dir ms x y = true
  · right
    simp [dither_blend_tiles, hmask]
  · left
    rw [Bool.not_eq_true] at hmask
    simp [dither_blend_tiles, hmask]

/-- Claim C3 witness: concrete 2×2 tiles, direction `"left"`, matrix size 4,
pixel `(1, 0)`. -/
theorem spec_C3_witness :
    (dither_blend_tiles (solidTile 2 2 grassPixel) (solidTile 2 2 waterPixel)
        "left" 4).width = (solidTile 2 2 grassPixel).width ∧
    (dither_blend_tiles (solidTile 2 2 grassPixel) (solidTile 2 2 waterPixel)
        "left" 4).height = (solidTile 2 2 grassPixel).height ∧
    (dither_blend_tiles (solidTile 2 2 grassPixel) (solidTile 2 2 waterPixel)
        "left" 4).pix 1 0 =
      (if create_bayer_mask (solidTile 2 2 grassPixel).width
          (solidTile 2 2 grassPixel).height "left" 4 1 0
       then (if (solidTile 2 2 waterPixel).width = (solidTile 2 2 grassPixel).width ∧
               (solidTile 2 2 waterPixel).height = (solidTile 2 2 grassPixel).height
             then solidTile 2 2 waterPixel
             else nearestResize (solidTile 2 2 waterPixel)
               (solidTile 2 2 grassPixel).width (solidTile 2 2 grassPixel).height).pix 1 0
       else (solidTile 2 2 grassPixel).pix 1 0) ∧
    ((dither_blend_tiles (solidTile 2 2 grassPixel) (solidTile 2 2 waterPixel)
        "left" 4).pix 1 0 = (solidTile 2 2 grassPixel).pix 1 0 ∨
     (dither_blend_tiles (solidTile 2 2 grassPixel) (solidTile 2 2 waterPixel)
        "left" 4).pix 1 0 =
       (if (solidTile 2 2 waterPixel).width = (solidTile 2 2 grassPixel).width ∧
           (solidTile 2 2 waterPixel).height = (solidTile 2 2 grassPixel).height
        then solidTile 2 2 waterPixel
        else nearestResize (solidTile 2 2 waterPixel)
          (solidTile 2 2 grassPixel).width (solidTile 2 2 grassPixel).height).pix 1 0) :=
  spec_C3 (solidTile 2 2 grassPixel) (solidTile 2 2 waterPixel) "left" 4 1 0
    (by decide) (by decide) (by decide) (by decide)

/-- Unfolding one step of the `palette_swap` index loop. -/
theorem swapFoldRGB_succ (p : Pixel) (src tgt : List RGBTriple)
    (tolerance : ℤ) (m : ℕ) :
    swapFoldRGB p src tgt tolerance (m + 1) =
      (if swapMatch p (src.getD m (0, 0, 0)) tolerance
       then tgt.getD m (0, 0, 0) else swapFoldRGB p src tgt tolerance m) := by
  unfold swapFoldRGB
  rw [List.range_succ, List.foldl_append]
  rfl

/-- If no index below `n` matches, the swap loop leaves the pixel's RGB
unchanged. -/
theorem swapFoldRGB_of_no_match (p : Pixel) (src tgt : List RGBTriple)
    (tolerance : ℤ) (n : ℕ)
    (h : ∀ i < n, swapMatch p (src.getD i (0, 0, 0)) tolerance = false) :
    swapFoldRGB p src tgt tolerance n = (p.r, p.g, p.b) := by
  induction n with
  | zero => rfl
  | succ m ih =>
    rw [swapFoldRGB_succ, h m (Nat.lt_succ_self m)]
    exact ih (fun i hi => h i (Nat.lt_succ_of_lt hi))

/-- If `j < n` matches and no later index below `n` matches, the swap loop
ends with `target[j]` (last match wins). -/
theorem swapFoldRGB_of_last_match (p : Pixel) (src tgt : List RGBTriple)
    (tolerance : ℤ) (j n : ℕ) (hj : j < n)
    (hmatch : swapMatch p (src.getD j (0, 0, 0)) tolerance = true)
    (hafter : ∀ k, j < k → k < n → swapMatch p (src.getD k (0, 0, 0)) tolerance = false) :
    swapFoldRGB p src tgt tolerance n = tgt.getD j (0, 0, 0) := by
  induction n with
  | zero => omega
  | succ m ih =>
    rw [swapFoldRGB_succ]
    by_cases hjm : j = m
    · subst hjm
      rw [hmatch]
      simp
    · have hjm2 : j < m := by omega
      rw [hafter m hjm2 (Nat.lt_succ_self m)]
      simp only [Bool.false_eq_true, if_false]
      exact ih hjm2 (fun k hk1 hk2 => hafter k hk1 (Nat.lt_succ_of_lt hk2))

/-- Claim C4: with equal-length palettes, `palette_swap` succeeds and, per
pixel, iterates the palette indices in order over the ORIGINAL colours:
alpha is never changed; a pixel matching no entry (Manhattan distance
within tolerance and alpha ≥ 50) is untouched; and a pixel whose last
matching index is `j` ends with `target[j]`'s RGB and its original alpha
(last-match-wins). -/
theorem spec_C4 (t : Tile) (src tgt : List RGBTriple) (tolerance : ℤ)
    (x y j : ℕ) (hlen : src.length = tgt.length) :
    ∃ out, palette_swap t src tgt tolerance = .ok out ∧
      out.width = t.width ∧ out.height = t.height ∧
      (out.pix x y).a = (t.pix x y).a ∧
      ((∀ i < src.length,
          swapMatch (t.pix x y) (src.getD i (0, 0, 0)) tolerance = false) →
        out.pix x y = t.pix x y) ∧
      (j < src.length →
        swapMatch (t.pix x y) (src.getD j (0, 0, 0)) tolerance = true →
        (∀ k, j < k → k < src.length →
          swapMatch (t.pix x y) (src.getD k (0, 0, 0)) tolerance = false) →
        out.pix x y = ⟨(tgt.getD j (0, 0, 0)).1, (tgt.getD j (0, 0, 0)).2.1,
          (tgt.getD j (0, 0, 0)).2.2, (t.pix x y).a⟩) := by
  refine ⟨⟨t.width, t.height, fun x y =>
      let p := t.pix x y
      let rgb := swapFoldRGB p src tgt tolerance src.length
      ⟨rgb.1, rgb.2.1, rgb.2.2, p.a⟩⟩, ?_, rfl, rfl, rfl, ?_, ?_⟩
  · simp [palette_swap, hlen]
  · intro hnone
    show (⟨_, _, _, _⟩ : Pixel) = t.pix x y
    rw [swapFoldRGB_of_no_match (t.pix x y) src tgt tolerance src.length hnone]
  · intro hjlt hmatch hafter
    show (⟨_, _, _, _⟩ : Pixel) = _
    rw [swapFoldRGB_of_last_match (t.pix x y) src tgt tolerance j src.length
      hjlt hmatch hafter]

/-- Claim C4 witness: a 1×1 black tile against a two-entry palette whose
entries both match; the second (later) entry wins and alpha is kept. -/
theorem spec_C4_witness :
    ∃ out, palette_swap (solidTile 1 1 ⟨0, 0, 0, 200⟩)
        [(0, 0, 0), (10, 0, 0)] [(50, 60, 70), (80, 90, 100)] 24 = .ok out ∧
      out.width = (solidTile 1 1 ⟨0, 0, 0, 200⟩).width ∧
      out.height = (solidTile 1 1 ⟨0, 0, 0, 200⟩).height ∧
      (out.pix 0 0).a = ((solidTile 1 1 ⟨0, 0, 0, 200⟩).pix 0 0).a ∧
      ((∀ i < ([(0, 0, 0), (10, 0, 0)] : List RGBTriple).length,
          swapMatch ((solidTile 1 1 ⟨0, 0, 0, 200⟩).pix 0 0)
            (([(0, 0, 0), (10, 0, 0)] : List RGBTriple).getD i (0, 0, 0)) 24 = false) →
        out.pix 0 0 = (solidTile 1 1 ⟨0, 0, 0, 200⟩).pix 0 0) ∧
      (1 < ([(0, 0, 0), (10, 0, 0)] : List RGBTriple).length →
        swapMatch ((solidTile 1 1 ⟨0, 0, 0, 200⟩).pix 0 0)
          (([(0, 0, 0), (10, 0, 0)] : List RGBTriple).getD 1 (0, 0, 0)) 24 = true →
        (∀ k, 1 < k → k < ([(0, 0, 0), (10, 0, 0)] : List RGBTriple).length →
          swapMatch ((solidTile 1 1 ⟨0, 0, 0, 200⟩).pix 0 0)
            (([(0, 0, 0), (10, 0, 0)] : List RGBTriple).getD k (0, 0, 0)) 24 = false) →
        out.pix 0 0 =
          ⟨(([(50, 60, 70), (80, 90, 100)] : List RGBTriple).getD 1 (0, 0, 0)).1,
           (([(50, 60, 70), (80, 90, 100)] : List RGBTriple).getD 1 (0, 0, 0)).2.1,
           (([(50, 60, 70), (80, 90, 100)] : List RGBTriple).getD 1 (0, 0, 0)).2.2,
           ((solidTile 1 1 ⟨0, 0, 0, 200⟩).pix 0 0).a⟩) :=
  spec_C4 (solidTile 1 1 ⟨0, 0, 0, 200⟩) [(0, 0, 0), (10, 0, 0)]
    [(50, 60, 70), (80, 90, 100)] 24 0 0 1 (by decide)

/-- Claim C5: for every neighbour-presence map, `compute_bitmask` sets an
edge bit iff that edge neighbour is present and a corner bit iff the corner
neighbour is present and both adjacent edge neighbours are present; in
particular the all-true map gives 255, the all-false map gives 0, and a
diagonal without both adjacent edges never contributes its corner bit. -/
theorem spec_C5 :
    (∀ n ne e se s sw w nw : Bool,
      (compute_bitmask ⟨n, ne, e, se, s, sw, w, nw⟩).testBit 0 = n ∧
      (compute_bitmask ⟨n, ne, e, se, s, sw, w, nw⟩).testBit 1 = (ne && n && e) ∧
      (compute_bitmask ⟨n, ne, e, se, s, sw, w, nw⟩).testBit 2 = e ∧
      (compute_bitmask ⟨n, ne, e, se, s, sw, w, nw⟩).testBit 3 = (se && s && e) ∧
      (compute_bitmask ⟨n, ne, e, se, s, sw, w, nw⟩).testBit 4 = s ∧
      (compute_bitmask ⟨n, ne, e, se, s, sw, w, nw⟩).testBit 5 = (sw && s && w) ∧
      (compute_bitmask ⟨n, ne, e, se, s, sw, w, nw⟩).testBit 6 = w ∧
      (compute_bitmask ⟨n, ne, e, se, s, sw, w, nw⟩).testBit 7 = (nw && n && w)) ∧
    compute_bitmask ⟨true, true, true, true, true, true, true, true⟩ = 255 ∧
    compute_bitmask ⟨false, false, false, false, false, false, false, false⟩ = 0 := by
  decide

/-- Claim C10: the value of `compute_bitmask` always lies in the key set of
`BLOB47_CATEGORIES`; every key satisfies the corner-validity rule (a set
diagonal bit has both adjacent edge bits set) and is hit by
`compute_bitmask` (its own bit pattern is a preimage); and the key set has
exactly 47 distinct elements — so the keys are exactly the image of
`compute_bitmask`. -/
theorem spec_C10 :
    (∀ n ne e se s sw w nw : Bool,
      compute_bitmask ⟨n, ne, e, se, s, sw, w, nw⟩ ∈ blob47Keys) ∧
    (∀ k ∈ blob47Keys,
      ((k.testBit 1 = true → k.testBit 0 = true ∧ k.testBit 2 = true) ∧
       (k.testBit 3 = true → k.testBit 4 = true ∧ k.testBit 2 = true) ∧
       (k.testBit 5 = true → k.testBit 4 = true ∧ k.testBit 6 = true) ∧
       (k.testBit 7 = true → k.testBit 0 = true ∧ k.testBit 6 = true)) ∧
      compute_bitmask (mapOfBitmask k) = k) ∧
    blob47Keys.length = 47 ∧ blob47Keys.Nodup := by
  decide

/-- Claim C9: saving a palette and loading it back reproduces the same
ordered list of RGB triples exactly. -/
theorem spec_C9 (p : List RGBTriple) :
    load_palette_json (save_palette_json p) = some p := by
  unfold load_palette_json save_palette_json
  induction p with
  | nil => rfl
  | cons c rest ih =>
    obtain ⟨r, g, b⟩ := c
    simpa [decodePaletteColors] using ih

/-- Demo achromatic tile: one opaque gray pixel.  Its hue histogram is all
zeros, which is the case `compare_palettes` penalises even on a
self-comparison. -/
def grayDemoTile : Tile := solidTile 1 1 ⟨100, 100, 100, 255⟩

/-- Demo chromatic tile: one opaque pure-red pixel. -/
def redDemoTile : Tile := solidTile 1 1 ⟨255, 0, 0, 255⟩

/-- The statistics record of `redDemoTile` (luminance `0.299·255 = 76.245`,
one unique colour, all hue weight in bin 0). -/
def redDemoStats : TilemapStats :=
  ⟨1, 76245, 76245, 76245, 1, [1, 0, 0, 0, 0, 0, 0, 0, 0, 0, 0, 0]⟩

/-- A squared entry is bounded by the self dot product. -/
theorem sq_le_dotCounts (q : ℕ) (l : List ℕ) (hq : q ∈ l) :
    q * q ≤ dotCounts l l := by
  induction l with
  | nil => cases hq
  | cons a as ih =>
    show q * q ≤ a * a + dotCounts as as
    rcases List.mem_cons.mp hq with h | h
    · subst h
      exact Nat.le_add_right _ _
    · exact le_add_of_nonneg_of_le (Nat.zero_le _) (ih h)

/-- Claim C6 counterexample: comparing the statistics of the gray demo image
with themselves scores 70, not 100 — the achromatic image has a zero hue
histogram, so the source takes the `norm > 0` else-branch, sets
`cosine_sim = 0 < 0.5`, and subtracts 30 even though the two records are
identical (the deltas are still zero and `compatible` still true). -/
theorem spec_C6_counterexample :
    compare_palettes (extract_tilemap_palette grayDemoTile)
        (extract_tilemap_palette grayDemoTile) =
      some ⟨70, true, 0, 0, 1, 1, 1⟩ ∧
    (70 : ℕ) ≠ 100 := by
  decide

/-- Claim C6 (amended): for statistics produced by
`extract_tilemap_palette` whose hue histogram is not identically zero (at
least one chromatic sampled pixel), comparing them with themselves yields
score 100, `compatible = true`, both reported deltas (luminance difference
and contrast-range difference) zero, and no issues. -/
theorem spec_C6_amended (t : Tile) (s : TilemapStats)
    (h1 : extract_tilemap_palette t = some s)
    (h2 : ∃ q ∈ s.hueCounts, q ≠ 0) :
    compare_palettes (extract_tilemap_palette t) (extract_tilemap_palette t) =
      some ⟨100, true, 0, 0, s.uniqueColors, s.uniqueColors, 0⟩ := by
  rw [h1]
  obtain ⟨q, hqmem, hqne⟩ := h2
  have hS : 0 < dotCounts s.hueCounts s.hueCounts :=
    lt_of_lt_of_le (Nat.pos_of_ne_zero (Nat.mul_ne_zero hqne hqne))
      (sq_le_dotCounts q _ hqmem)
  have hSS : 0 < dotCounts s.hueCounts s.hueCounts * dotCounts s.hueCounts s.hueCounts :=
    Nat.mul_pos hS hS
  have hno4 : ¬(4 * dotCounts s.hueCounts s.hueCounts * dotCounts s.hueCounts s.hueCounts <
      dotCounts s.hueCounts s.hueCounts * dotCounts s.hueCounts s.hueCounts) := by
    nlinarith
  have hno100 : ¬(100 * dotCounts s.hueCounts s.hueCounts * dotCounts s.hueCounts s.hueCounts <
      49 * dotCounts s.hueCounts s.hueCounts * dotCounts s.hueCounts s.hueCounts) := by
    nlinarith
  have h49 : 49 * dotCounts s.hueCounts s.hueCounts * dotCounts s.hueCounts s.hueCounts ≤
      100 * dotCounts s.hueCounts s.hueCounts * dotCounts s.hueCounts s.hueCounts := by
    nlinarith
  have h40 : ¬((40000 : ℤ) * s.pixelCount * s.pixelCount < 0) :=
    not_lt.mpr (by positivity)
  have h20 : ¬((20000 : ℤ) * s.pixelCount * s.pixelCount < 0) :=
    not_lt.mpr (by positivity)
  have h60 : ¬((60000 : ℤ) < 0) := by norm_num
  rcases Nat.eq_zero_or_pos s.uniqueColors with hc | hc
  · simp [compare_palettes, sub_self, abs_zero, h40, h20, h60, hSS, hno4, hno100,
      h49, hc]
  · have hr : ¬(10 * s.uniqueColors < 3 * s.uniqueColors) := by omega
    simp [compare_palettes, sub_self, abs_zero, h40, h20, h60, hSS, hno4, hno100,
      h49, hc, hr]

/-- Claim C6 witness: the red demo image has a nonzero hue histogram, and
its self-comparison indeed reports `score = 100`, `compatible`, zero
deltas. -/
theorem spec_C6_witness :
    compare_palettes (extract_tilemap_palette redDemoTile)
        (extract_tilemap_palette redDemoTile) =
      some ⟨100, true, 0, 0, 1, 1, 0⟩ :=
  spec_C6_amended redDemoTile redDemoStats (by decide) ⟨1, by decide, by decide⟩

/-- Unfolding `create_bayer_mask` for direction `"left"` and `width ≥ 2`. -/
theorem create_bayer_mask_left (w h ms x y : ℕ) (hw : ¬(w ≤ 1)) :
    create_bayer_mask w h "left" ms x y =
      decide ((x : ℤ) * (bayerDen ms) > (bayerNum ms y x) * ((w : ℤ) - 1)) := by
  simp [create_bayer_mask, hw]

/-- The `"left"`, matrix-size-4 mask is monotone when moving 4 columns to
the right (same threshold column, larger gradient). -/
theorem left4_mask_mono (w h x y : ℕ) (hw : 2 ≤ w)
    (hx : create_bayer_mask w h "left" 4 x y = true) :
    create_bayer_mask w h "left" 4 (x + 4) y = true := by
  have hb : bayerNum 4 y (x + 4) = bayerNum 4 y x := by
    unfold bayerNum
    norm_num [Nat.add_mod_right]
  have hw1 : ¬(w ≤ 1) := by omega
  rw [create_bayer_mask_left w h 4 x y hw1, decide_eq_true_eq] at hx
  rw [create_bayer_mask_left w h 4 (x + 4) y hw1, hb, decide_eq_true_eq]
  have hd16 : (bayerDen 4 : ℤ) = 16 := by decide
  rw [hd16] at hx ⊢
  push_cast
  nlinarith [hx]

/-- Claim C8: in the `create_bayer_mask width height "left" 4` mask with
`width ≥ 4`, `height ≥ 1`, the per-block average of mask values (the
fraction of pixels with `gradient > threshold`) over successive 4-column
blocks is non-decreasing from left to right (stated for any two adjacent
blocks that both lie inside the width). -/
theorem spec_C8 (w h k : ℕ) (hw : 4 ≤ w) (hh : 1 ≤ h)
    (hk : 4 * (k + 1) + 3 < w) :
    (blockCount w h k : ℚ) / ((4 * h : ℕ) : ℚ) ≤
      (blockCount w h (k + 1) : ℚ) / ((4 * h : ℕ) : ℚ) := by
  have hcount : blockCount w h k ≤ blockCount w h (k + 1) := by
    unfold blockCount
    refine Finset.sum_le_sum (fun j hj => Finset.sum_le_sum (fun yy hy => ?_))
    have h4 : 4 * (k + 1) + j = (4 * k + j) + 4 := by ring
    rw [h4]
    by_cases hm : create_bayer_mask w h "left" 4 (4 * k + j) yy = true
    · have hm2 := left4_mask_mono w h (4 * k + j) yy (by omega) hm
      rw [hm, hm2]
    · rw [Bool.not_eq_true] at hm
      rw [hm]
      simp
  have hpos : (0 : ℚ) < ((4 * h : ℕ) : ℚ) := by
    have : 0 < 4 * h := by omega
    exact_mod_cast this
  have hq : (blockCount w h k : ℚ) ≤ (blockCount w h (k + 1) : ℚ) := by
    exact_mod_cast hcount
  gcongr

/-- Claim C8 witness: concrete mask of width 12, height 2 — the first two
4-column blocks of the `"left"` gradient, averages compared. -/
theorem spec_C8_witness :
    (blockCount 12 2 0 : ℚ) / ((4 * 2 : ℕ) : ℚ) ≤
      (blockCount 12 2 1 : ℚ) / ((4 * 2 : ℕ) : ℚ) :=
  spec_C8 12 2 0 (by decide) (by decide) (by decide)

/-- Claim C7: for every centre/background pair and matrix size,
`generate_autotile47_set` produces exactly 47 tiles with pairwise distinct
names, one per entry of the fixed bitmask table iterated in strictly
ascending bitmask order, a sheet of `8·tileWidth × ceil(47/8)·tileHeight`
(i.e. 6 rows), and a mapping with `cols = 8`, `rows = 6`,
`totalTiles = 47`, independent of the tiles' pixel content. -/
theorem spec_C7 (c b : Tile) (ms : ℕ) :
    (generate_autotile47_set c b ms).tiles.length = 47 ∧
    ((generate_autotile47_set c b ms).tiles.map Prod.fst).Nodup ∧
    (generate_autotile47_set c b ms).tiles.map Prod.fst =
      (sortByKey BLOB47_CATEGORIES).map Prod.snd ∧
    List.Pairwise (fun p q => p.1 < q.1) (sortByKey BLOB47_CATEGORIES) ∧
    (generate_autotile47_set c b ms).sheetWidth = 8 * c.width ∧
    (generate_autotile47_set c b ms).sheetHeight = 6 * c.height ∧
    (generate_autotile47_set c b ms).mappingCols = 8 ∧
    (generate_autotile47_set c b ms).mappingRows = 6 ∧
    (generate_autotile47_set c b ms).mappingTotal = 47 := by
  have hlen : (sortByKey BLOB47_CATEGORIES).length = 47 := by decide
  have hmap : (generate_autotile47_set c b ms).tiles.map Prod.fst =
      (sortByKey BLOB47_CATEGORIES).map Prod.snd := by
    simp [generate_autotile47_set, List.map_map]
  refine ⟨?_, ?_, hmap, by decide, by rfl, ?_, by rfl, ?_, ?_⟩
  · simp [generate_autotile47_set, hlen]
  · rw [hmap]
    decide
  · simp [generate_autotile47_set, hlen]
  · simp [generate_autotile47_set, hlen]
  · simp [generate_autotile47_set, hlen]

example : create_bayer_mask 4 4 "left" 4 3 0 = true := by decide
example : create_bayer_mask 4 4 "left" 4 0 0 = false := by decide
example : create_bayer_mask 2 2 "corner_tl" 4 1 1 = true := by decide
example : create_bayer_mask 8 8 "radial" 2 4 4 = false := by decide
example : create_bayer_mask 4 4 "nonsense" 4 2 2 = false := by decide
example : create_bayer_mask 4 4 "left" 99 3 0 = create_bayer_mask 4 4 "left" 4 3 0 := by decide
